import Mathlib

/-!
Verification of the ViT-Stamps scraping pipeline (Lukeyp43/ViT-Stamps).

Shallow embedding of the record-normalization and coordination logic of
  - src/scraper.py                 (StampScraper, HTML list variant)
  - src/scraper_api.py             (StampAPIScraper, plain JSON API variant)
  - src/scraper_api_categories.py  (StampAPICategoryScraper)
  - src/scraper_api_us_conditions.py (StampAPIUSConditionScraper)
  - src/scraper_product_pages.py   (StampProductScraper, link-walk variant)

Python strings are modelled as Lean `String` values, manipulated through
`List Char`, at the ASCII level (`str.isdigit`, `str.strip`, `str.split`
are modelled for ASCII text, which is all the pipeline handles).
Python floats are modelled as `ℚ`: every numeric literal appearing in the
claims (12.5, 1234.50, 5.0) is exactly representable in binary floating
point, so no rounding behaviour is lost.

The Python extractors signal every rejection uniformly by returning `None`;
the embedding tags each `return None` site with the rejection taxonomy of
the specification (`NoIdentifier`, `Duplicate`, `NoImage`,
`InvalidCatalogNumber`, `NoYear`, `NoCountry`, `NoPrice`,
`ExtractionError`), one tag per source gate, so that theorems can speak
about which gate fired.  The mutable per-instance set `self.scraped_ids`
is modelled as an explicit `List String` threaded through the functions.
-/

/-- Python `str.isspace` for the ASCII whitespace characters
(space, tab, newline, carriage return, vertical tab, form feed). -/
def pyIsSpace (c : Char) : Bool :=
  c == ' ' || c == '\t' || c == '\n' || c == '\r' ||
  c == Char.ofNat 11 || c == Char.ofNat 12

/-- ASCII decimal digit, the relevant case of Python `str.isdigit`. -/
def asciiDigit (c : Char) : Bool :=
  '0' ≤ c && c ≤ '9'

/-- Python `str.isdigit`: nonempty and every character a digit. -/
def pyIsDigit (s : String) : Bool :=
  !s.data.isEmpty && s.data.all asciiDigit

/-- Python `str.strip` (both ends, whitespace). -/
def pyStrip (s : String) : String :=
  ⟨((s.data.dropWhile pyIsSpace).reverse.dropWhile pyIsSpace).reverse⟩

/-- Helper for `pyWords`: split a character list on whitespace runs. -/
def wordsAux : List Char → List Char → List (List Char)
  | [], acc => if acc.isEmpty then [] else [acc.reverse]
  | c :: cs, acc =>
    if pyIsSpace c then
      if acc.isEmpty then wordsAux cs [] else acc.reverse :: wordsAux cs []
    else wordsAux cs (c :: acc)

/-- Python `str.split()` with no arguments: whitespace-delimited words. -/
def pyWords (s : String) : List String :=
  (wordsAux s.data []).map List.asString

/-- Does the second list start with the first? -/
def startsWithL : List Char → List Char → Bool
  | [], _ => true
  | _ :: _, [] => false
  | a :: as, b :: bs => a == b && startsWithL as bs

/-- Does the haystack contain the needle as a contiguous sublist? -/
def hasSubL (n : List Char) : List Char → Bool
  | [] => n.isEmpty
  | c :: cs => startsWithL n (c :: cs) || hasSubL n cs

/-- Python `needle in hay` on strings. -/
def hasSub (hay needle : String) : Bool :=
  hasSubL needle.data hay.data

/-- First occurrence of `sep` in a list: `some (before, after)` or `none`. -/
def splitFirst (sep : List Char) : List Char → Option (List Char × List Char)
  | [] => none
  | c :: cs =>
    if startsWithL sep (c :: cs) then some ([], (c :: cs).drop sep.length)
    else (splitFirst sep cs).map (fun p => (c :: p.1, p.2))

/-- Fuel-driven core of Python `str.split(sep)`: leftmost, non-overlapping.
The fuel is always instantiated with more than the length of the input, so
the zero-fuel branch is unreachable. -/
def splitAllL (sep : List Char) : Nat → List Char → List (List Char)
  | 0, s => [s]
  | fuel + 1, s =>
    match splitFirst sep s with
    | none => [s]
    | some (b, a) => b :: splitAllL sep fuel a

/-- Python `s.split(sep)` (all occurrences), for nonempty `sep`. -/
def pySplitAll (s sep : String) : List String :=
  (splitAllL sep.data (s.data.length + 1) s.data).map List.asString

/-- Python `s.split(sep, 1)` (first occurrence only). -/
def pySplitOnce (s sep : String) : List String :=
  match splitFirst sep.data s.data with
  | none => [s]
  | some (b, a) => [List.asString b, List.asString a]

/-- `re.match(r"(\d{4})", s)`: the leading four characters, when they are
all decimal digits. -/
def yearOf (s : String) : Option String :=
  match s.data with
  | a :: b :: c :: d :: _ =>
    if asciiDigit a && asciiDigit b && asciiDigit c && asciiDigit d then
      some (List.asString [a, b, c, d])
    else none
  | _ => none

/-- Python `s[4:]`. -/
def dropFour (s : String) : String := ⟨s.data.drop 4⟩

/-- Value of a digit list read base 10. -/
def natVal (l : List Char) : Nat :=
  l.foldl (fun acc c => 10 * acc + (c.toNat - '0'.toNat)) 0

/-- Python `float` on strings of shape `\d*\.?\d*` (the only shape the
price regular expression can produce after comma removal); `none` models
`ValueError` (for example on the empty string or a bare dot).  The value
`intpart.fracpart` is the exact rational
`(intpart * 10 ^ k + fracpart) / 10 ^ k`. -/
def pyFloatDec (s : String) : Option ℚ :=
  let ip := s.data.takeWhile asciiDigit
  match s.data.dropWhile asciiDigit with
  | [] => if ip.isEmpty then none else some (mkRat (natVal ip) 1)
  | '.' :: fp =>
    if fp.all asciiDigit then
      if ip.isEmpty && fp.isEmpty then none
      else
        some (mkRat (natVal ip * 10 ^ fp.length + natVal fp) (10 ^ fp.length))
    else none
  | _ => none

/-- `re.search(r"\$([\d,]+\.?\d*)", s)`: the captured group of the
leftmost match, scanning for a dollar sign followed by at least one digit
or comma, then greedily digits/commas, an optional dot, and digits. -/
def priceScan : List Char → Option (List Char)
  | [] => none
  | c :: rest =>
    if c == '$' then
      match rest with
      | d :: _ =>
        if asciiDigit d || d == ',' then
          let g1 := rest.takeWhile (fun x => asciiDigit x || x == ',')
          match rest.dropWhile (fun x => asciiDigit x || x == ',') with
          | '.' :: r2 => some (g1 ++ '.' :: r2.takeWhile asciiDigit)
          | _ => some g1
        else priceScan rest
      | [] => none
    else priceScan rest

/-- The HTML-variant price parse (scraper.py lines 103-106 and
scraper_product_pages.py lines 148-151): find the dollar amount with
`re.search`, strip commas, convert with `float`. -/
def parsePriceText (s : String) : Option ℚ :=
  match priceScan s.data with
  | none => none
  | some g => pyFloatDec (List.asString (g.filter (fun c => c ≠ ',')))

/-- `parts[1].strip()` after `parts = title.split(" - ")`
(scraper_api.py lines 76-80): the text between the first and second
occurrence of the delimiter. -/
def titleSecond (title : String) : String :=
  pyStrip ((pySplitAll title " - ").getD 1 "")

/-- `parts[1].strip()` after `parts = title.split(" - ", 1)`
(scraper_api_categories.py lines 89-93): the whole remainder of the
title after the first occurrence of the delimiter. -/
def titleSecondOnce (title : String) : String :=
  pyStrip ((pySplitOnce title " - ").getD 1 "")

/-- Python `a or b` on strings read with `.get(k, "")`: the first operand
unless it is empty. -/
def pyOrStr (a b : String) : String :=
  if a = "" then b else a

/-- Python `result.get("price") or result.get("ss_price")`: a present but
zero (falsy) first field falls through to the second. -/
def pyOrPrice (a b : Option ℚ) : Option ℚ :=
  match a with
  | some q => if q = 0 then b else some q
  | none => b

/-- The rejection taxonomy of the specification.  The Python code returns
`None` at every gate; each constructor names one family of gates. -/
inductive Rejection where
  | NoIdentifier
  | Duplicate
  | NoImage
  | InvalidCatalogNumber
  | NoYear
  | NoCountry
  | NoPrice
  | ExtractionError
  deriving DecidableEq, Repr

/-- A canonical stamp record, the dictionary built on success by
`extract_stamp_data` in scraper.py and scraper_api.py. -/
structure StampRecord where
  product_id : String
  image_url : String
  stamp_number : String
  year : String
  country : String
  price : ℚ
  deriving DecidableEq, Repr

/-- A raw JSON API result, with exactly the fields the extractors read.
A `none` field models an absent key (Python `dict.get` default). -/
structure ApiResult where
  uid : Option String := none
  id : Option String := none
  imageUrl : Option String := none
  thumbnailImageUrl : Option String := none
  sku : Option String := none
  name : Option String := none
  price : Option ℚ := none
  ss_price : Option ℚ := none
  deriving DecidableEq, Repr

namespace StampAPIScraper

/-- scraper_api.py lines 35-45: the last whitespace-delimited token of the
catalog text must be all digits. -/
def is_valid_stamp_number (stamp_number_text : String) : Bool :=
  match (pyWords stamp_number_text).getLast? with
  | none => false
  | some number_part => pyIsDigit number_part

/-- scraper_api.py lines 47-117 (`StampAPIScraper.extract_stamp_data`),
with `self.scraped_ids` passed in and returned explicitly.  Gates appear
in source order; each `return None` site carries its taxonomy tag. -/
def extract_stamp_data (result : ApiResult) (seen : List String) :
    Except Rejection StampRecord × List String :=
  let product_id := pyOrStr (result.uid.getD "") (result.id.getD "")
  if product_id = "" then (.error .NoIdentifier, seen)
  else if product_id ∈ seen then (.error .Duplicate, seen)
  else
    let image_url :=
      pyOrStr (result.imageUrl.getD "") (result.thumbnailImageUrl.getD "")
    if image_url = "" then (.error .NoImage, seen)
    else if hasSub image_url "new-image-coming-soon.jpg" then
      (.error .NoImage, seen)
    else
      let stamp_number_text := result.sku.getD ""
      if stamp_number_text = "" then (.error .InvalidCatalogNumber, seen)
      else if !is_valid_stamp_number stamp_number_text then
        (.error .InvalidCatalogNumber, seen)
      else
        let title := result.name.getD ""
        if title = "" then (.error .NoYear, seen)
        else
          if (pySplitAll title " - ").length < 2 then (.error .NoYear, seen)
          else
            let year_country := titleSecond title
            match yearOf year_country with
            | none => (.error .NoYear, seen)
            | some year =>
              let country := pyStrip (dropFour year_country)
              if country = "" then (.error .NoCountry, seen)
              else
                match pyOrPrice result.price result.ss_price with
                | none => (.error .NoPrice, seen)
                | some price =>
                  (.ok { product_id := product_id, image_url := image_url,
                         stamp_number := stamp_number_text, year := year,
                         country := country, price := price },
                   product_id :: seen)

end StampAPIScraper

/-- The round-trip raw record of the specification:
`{id:"42", image:"https://x/img.jpg", catalog:"Norway 1",
title:"1 - 1855 Norway", price:12.5}`. -/
def rawRecord42 : ApiResult :=
  { id := some "42", imageUrl := some "https://x/img.jpg",
    sku := some "Norway 1", name := some "1 - 1855 Norway",
    price := some (mkRat 25 2) }

/-- The canonical record the specification expects for `rawRecord42`. -/
def canonical42 : StampRecord :=
  { product_id := "42", image_url := "https://x/img.jpg",
    stamp_number := "Norway 1", year := "1855", country := "Norway",
    price := mkRat 25 2 }

/-- A raw HTML listing (one `li.ss__result` element), with exactly the
lookups `StampScraper.extract_stamp_data` performs.  A `none` field models
a missing element or attribute; `get_text(strip=True)` is applied by the
extractor itself via `pyStrip`. -/
structure HtmlListing where
  dataProductId : Option String := none
  cardImageSrc : Option String := none
  stampNumberText : Option String := none
  titleSpanText : Option String := none
  priceText : Option String := none
  deriving DecidableEq, Repr

namespace StampScraper

/-- scraper.py lines 36-48: identical to the API variant validator. -/
def is_valid_stamp_number (stamp_number_text : String) : Bool :=
  match (pyWords stamp_number_text).getLast? with
  | none => false
  | some number_part => pyIsDigit number_part

/-- scraper.py lines 50-122 (`StampScraper.extract_stamp_data`).  Note:
unlike every JSON variant, this extractor has no emptiness check on the
country computed at line 94, and no emptiness check on the image `src`
attribute (only the placeholder-substring test at line 66). -/
def extract_stamp_data (listing : HtmlListing) (seen : List String) :
    Except Rejection StampRecord × List String :=
  match listing.dataProductId with
  | none => (.error .NoIdentifier, seen)
  | some product_id =>
    if product_id = "" then (.error .NoIdentifier, seen)
    else if product_id ∈ seen then (.error .Duplicate, seen)
    else
      match listing.cardImageSrc with
      | none => (.error .NoImage, seen)
      | some image_url =>
        if hasSub image_url "new-image-coming-soon.jpg" then
          (.error .NoImage, seen)
        else
          match listing.stampNumberText with
          | none => (.error .InvalidCatalogNumber, seen)
          | some raw_number =>
            let stamp_number_text := pyStrip raw_number
            if !is_valid_stamp_number stamp_number_text then
              (.error .InvalidCatalogNumber, seen)
            else
              match listing.titleSpanText with
              | none => (.error .NoYear, seen)
              | some raw_title =>
                let title_text := pyStrip raw_title
                match yearOf title_text with
                | none => (.error .NoYear, seen)
                | some year =>
                  let country := pyStrip (dropFour title_text)
                  match listing.priceText with
                  | none => (.error .NoPrice, seen)
                  | some raw_price =>
                    match parsePriceText (pyStrip raw_price) with
                    | none => (.error .NoPrice, seen)
                    | some price =>
                      (.ok { product_id := product_id,
                             image_url := image_url,
                             stamp_number := stamp_number_text,
                             year := year, country := country,
                             price := price },
                       product_id :: seen)

end StampScraper

/-- A canonical stamp record of the category variant: the dictionary of
`StampAPICategoryScraper.extract_stamp_data`, carrying the category tag. -/
structure CatStampRecord where
  product_id : String
  image_url : String
  stamp_number : String
  year : String
  country : String
  price : ℚ
  category : String
  deriving DecidableEq, Repr

namespace StampAPICategoryScraper

/-- scraper_api_categories.py lines 58-65. -/
def is_valid_stamp_number (stamp_number_text : String) : Bool :=
  match (pyWords stamp_number_text).getLast? with
  | none => false
  | some number_part => pyIsDigit number_part

/-- scraper_api_categories.py lines 67-122
(`StampAPICategoryScraper.extract_stamp_data`).  Differences from the
plain API variant: the title is split with `split(" - ", 1)` (first
occurrence only, after a containment test), the price reads only the
`price` field, and the record is stamped with the category. -/
def extract_stamp_data (result : ApiResult) (category : String)
    (seen : List String) : Except Rejection CatStampRecord × List String :=
  let product_id := pyOrStr (result.uid.getD "") (result.id.getD "")
  if product_id = "" then (.error .NoIdentifier, seen)
  else if product_id ∈ seen then (.error .Duplicate, seen)
  else
    let image_url :=
      pyOrStr (result.imageUrl.getD "") (result.thumbnailImageUrl.getD "")
    if image_url = "" then (.error .NoImage, seen)
    else if hasSub image_url "new-image-coming-soon.jpg" then
      (.error .NoImage, seen)
    else
      let stamp_number_text := result.sku.getD ""
      if stamp_number_text = "" then (.error .InvalidCatalogNumber, seen)
      else if !is_valid_stamp_number stamp_number_text then
        (.error .InvalidCatalogNumber, seen)
      else
        let title := result.name.getD ""
        if title = "" then (.error .NoYear, seen)
        else if !hasSub title " - " then (.error .NoYear, seen)
        else
          if (pySplitOnce title " - ").length < 2 then (.error .NoYear, seen)
          else
            let year_country := titleSecondOnce title
            match yearOf year_country with
            | none => (.error .NoYear, seen)
            | some year =>
              let country := pyStrip (dropFour year_country)
              if country = "" then (.error .NoCountry, seen)
              else
                match result.price with
                | none => (.error .NoPrice, seen)
                | some price =>
                  (.ok { product_id := product_id, image_url := image_url,
                         stamp_number := stamp_number_text, year := year,
                         country := country, price := price,
                         category := category },
                   product_id :: seen)

end StampAPICategoryScraper

/-- A canonical stamp record of the US-conditions variant: the dictionary
of `StampAPIUSConditionScraper.extract_stamp_data`, carrying the
condition tag. -/
structure CondStampRecord where
  product_id : String
  image_url : String
  stamp_number : String
  year : String
  country : String
  price : ℚ
  condition : String
  deriving DecidableEq, Repr

namespace StampAPIUSConditionScraper

/-- scraper_api_us_conditions.py lines 46-53. -/
def is_valid_stamp_number (stamp_number_text : String) : Bool :=
  match (pyWords stamp_number_text).getLast? with
  | none => false
  | some number_part => pyIsDigit number_part

/-- scraper_api_us_conditions.py lines 55-110
(`StampAPIUSConditionScraper.extract_stamp_data`): line-identical to the
category variant, storing the tag under the `condition` key. -/
def extract_stamp_data (result : ApiResult) (condition : String)
    (seen : List String) : Except Rejection CondStampRecord × List String :=
  let product_id := pyOrStr (result.uid.getD "") (result.id.getD "")
  if product_id = "" then (.error .NoIdentifier, seen)
  else if product_id ∈ seen then (.error .Duplicate, seen)
  else
    let image_url :=
      pyOrStr (result.imageUrl.getD "") (result.thumbnailImageUrl.getD "")
    if image_url = "" then (.error .NoImage, seen)
    else if hasSub image_url "new-image-coming-soon.jpg" then
      (.error .NoImage, seen)
    else
      let stamp_number_text := result.sku.getD ""
      if stamp_number_text = "" then (.error .InvalidCatalogNumber, seen)
      else if !is_valid_stamp_number stamp_number_text then
        (.error .InvalidCatalogNumber, seen)
      else
        let title := result.name.getD ""
        if title = "" then (.error .NoYear, seen)
        else if !hasSub title " - " then (.error .NoYear, seen)
        else
          if (pySplitOnce title " - ").length < 2 then (.error .NoYear, seen)
          else
            let year_country := titleSecondOnce title
            match yearOf year_country with
            | none => (.error .NoYear, seen)
            | some year =>
              let country := pyStrip (dropFour year_country)
              if country = "" then (.error .NoCountry, seen)
              else
                match result.price with
                | none => (.error .NoPrice, seen)
                | some price =>
                  (.ok { product_id := product_id, image_url := image_url,
                         stamp_number := stamp_number_text, year := year,
                         country := country, price := price,
                         condition := condition },
                   product_id :: seen)

end StampAPIUSConditionScraper

/-- Python `a or b` on two optional attribute reads, where both `None`
and the empty string are falsy. -/
def pyOrOpt (a b : Option String) : Option String :=
  match a with
  | some s => if s = "" then b else some s
  | none => b

/-- Python `s.replace("#", "")`. -/
def pyReplaceHash (s : String) : String :=
  ⟨s.data.filter (fun c => c ≠ '#')⟩

/-- A raw product page, with exactly the element lookups
`StampProductScraper.extract_product_data` performs.  `none` models a
missing element (a raised `NoSuchElementException`) or a `None`
attribute; the image elements carry their `src` and `data-zoombaimage`
attributes. -/
structure ProductPage where
  dataProductId : Option String := none
  zoomImg : Option (Option String × Option String) := none
  presentationImg : Option (Option String × Option String) := none
  titleText : Option String := none
  stampNumberText : Option String := none
  priceText : Option String := none
  deriving DecidableEq, Repr

namespace StampProductScraper

/-- scraper_product_pages.py lines 59-65: remove `#`, strip, and require
the whole remaining text to be digits (not just the last token). -/
def is_valid_stamp_number (number_text : String) : Bool :=
  pyIsDigit (pyStrip (pyReplaceHash number_text))

/-- scraper_product_pages.py lines 67-170
(`StampProductScraper.extract_product_data`).  Note: a missing
`data-product-id` is NOT a rejection here; the record is produced with
the fallback identifier `"<country>_<number>"` and, in that case, nothing
is added to the seen set (lines 155-160). -/
def extract_product_data (page : ProductPage) (seen : List String) :
    Except Rejection StampRecord × List String :=
  let product_id := page.dataProductId
  if product_id.getD "" ≠ "" ∧ product_id.getD "" ∈ seen then
    (.error .Duplicate, seen)
  else
    let image_resolved :=
      match page.zoomImg with
      | some pair => some (pyOrOpt pair.1 pair.2)
      | none =>
        match page.presentationImg with
        | some pair => some (pyOrOpt pair.1 pair.2)
        | none => none
    match image_resolved with
    | none => (.error .NoImage, seen)
    | some image_opt =>
      let image_url := image_opt.getD ""
      if image_url = "" then (.error .NoImage, seen)
      else if hasSub image_url "new-image-coming-soon.jpg" then
        (.error .NoImage, seen)
      else
        match page.titleText with
        | none => (.error .NoYear, seen)
        | some raw_title =>
          let title_text := pyStrip raw_title
          if title_text = "" then (.error .NoYear, seen)
          else
            match yearOf title_text with
            | none => (.error .NoYear, seen)
            | some year =>
              let country := pyStrip (dropFour title_text)
              if country = "" then (.error .NoCountry, seen)
              else
                match page.stampNumberText with
                | none => (.error .InvalidCatalogNumber, seen)
                | some raw_number =>
                  let stamp_number_raw := pyStrip raw_number
                  if stamp_number_raw = "" then
                    (.error .InvalidCatalogNumber, seen)
                  else if !is_valid_stamp_number stamp_number_raw then
                    (.error .InvalidCatalogNumber, seen)
                  else
                    let number_clean :=
                      pyStrip (pyReplaceHash stamp_number_raw)
                    let stamp_number :=
                      country ++ " " ++ number_clean
                    match page.priceText with
                    | none => (.error .NoPrice, seen)
                    | some raw_price =>
                      match parsePriceText (pyStrip raw_price) with
                      | none => (.error .NoPrice, seen)
                      | some price =>
                        let pid := product_id.getD ""
                        let final_id :=
                          if pid = "" then country ++ "_" ++ number_clean
                          else pid
                        let seen2 :=
                          if pid = "" then seen else pid :: seen
                        (.ok { product_id := final_id,
                               image_url := image_url,
                               stamp_number := stamp_number,
                               year := year, country := country,
                               price := price },
                         seen2)

end StampProductScraper

/-- A response of the fetch collaborator, as the coordinator loops
distinguish them: HTTP 429 (throttled), any other non-200 status, or a
parsed JSON body with its result list and optional pagination block
(`currentPage` and `totalPages` keys). -/
inductive FetchResponse where
  | throttled
  | httpError (code : Nat)
  | ok (results : List ApiResult) (currentPage totalPages : Option Nat)
  deriving DecidableEq, Repr

namespace StampAPIScraper

/-- scraper_api.py lines 205-210: run the extractor over a result list,
keeping the accepted records and threading the seen set. -/
def processResults : List ApiResult → List String →
    List StampRecord × List String
  | [], seen => ([], seen)
  | r :: rs, seen =>
    match extract_stamp_data r seen with
    | (.ok s, seen2) =>
      let (l, seen3) := processResults rs seen2
      (s :: l, seen3)
    | (.error _, seen2) => processResults rs seen2

/-- scraper_api.py lines 168-215 (`StampAPIScraper.scrape_page`): one
fetch; on HTTP 429 sleep 30 seconds and retry the same request exactly
once (the second response argument); any remaining non-200 status raises
and the handler returns an empty batch.  The third component counts the
HTTP requests made. -/
def scrape_page (first retry : FetchResponse) (seen : List String) :
    List StampRecord × List String × Nat :=
  match first with
  | .ok results _ _ =>
    let (stamps, seen2) := processResults results seen
    (stamps, seen2, 1)
  | .httpError _ => ([], seen, 1)
  | .throttled =>
    match retry with
    | .ok results _ _ =>
      let (stamps, seen2) := processResults results seen
      (stamps, seen2, 2)
    | _ => ([], seen, 2)

/-- The streak update of scraper_api.py lines 240-253: a batch with zero
accepted records increments `consecutive_empty`, any accepted record
resets it, and the loop stops once the streak reaches 3. -/
def scrape_all_step (first retry : FetchResponse) (seen : List String)
    (streak : Nat) : (Nat × Bool × List String) × Nat :=
  let (stamps, seen2, _) := scrape_page first retry seen
  let streak2 := if stamps.isEmpty then streak + 1 else 0
  ((streak2, decide (3 ≤ streak2), seen2), stamps.length)

/-- scraper_api.py lines 217-263 (`StampAPIScraper.scrape_all`), driven
by a script of per-page response pairs (first attempt, retry after 429).
Returns the number of pages processed before stopping and the total
number of accepted records. -/
def scrape_all : List (FetchResponse × FetchResponse) → List String →
    Nat → Nat × Nat
  | [], _, _ => (0, 0)
  | (first, retry) :: rest, seen, streak =>
    match scrape_all_step first retry seen streak with
    | ((streak2, stop, seen2), k) =>
      if stop then (1, k)
      else
        let (n, acc) := scrape_all rest seen2 streak2
        (n + 1, acc + k)

end StampAPIScraper

/-- The continuation decision of one category/condition loop iteration:
stop, advance to the next page with a new streak and seen set, or repeat
the same request after the 30-second throttle sleep. -/
inductive LoopOutcome where
  | stop
  | next (page : Nat) (streak : Nat) (seen : List String)
  | sameRequest (page : Nat) (streak : Nat) (seen : List String)
  deriving DecidableEq, Repr

namespace StampAPICategoryScraper

/-- scraper_api_categories.py lines 230-235. -/
def processResults (category : String) : List ApiResult → List String →
    List CatStampRecord × List String
  | [], seen => ([], seen)
  | r :: rs, seen =>
    match extract_stamp_data r category seen with
    | (.ok s, seen2) =>
      let (l, seen3) := processResults category rs seen2
      (s :: l, seen3)
    | (.error _, seen2) => processResults category rs seen2

/-- One iteration of the scraper_api_categories.py lines 188-262 loop
body (`StampAPICategoryScraper.scrape_category`): HTTP 429 sleeps 30
seconds and `continue`s with the SAME page and streak; a non-200 status
breaks; an empty result list increments `consecutive_empty` and stops at
2; a nonempty result list resets `consecutive_empty` to 0 (regardless of
how many records are accepted) and then stops when
`currentPage >= totalPages` (with defaults `page` and 0).  The second
component is the number of records accepted this iteration. -/
def scrape_category_step (resp : FetchResponse) (category : String)
    (page : Nat) (seen : List String) (streak : Nat) : LoopOutcome × Nat :=
  match resp with
  | .throttled => (.sameRequest page streak seen, 0)
  | .httpError _ => (.stop, 0)
  | .ok results currentPageOpt totalPagesOpt =>
    if results.isEmpty then
      if 2 ≤ streak + 1 then (.stop, 0)
      else (.next (page + 1) (streak + 1) seen, 0)
    else
      let (stamps, seen2) := processResults category results seen
      let current_page := currentPageOpt.getD page
      let total_pages := totalPagesOpt.getD 0
      if total_pages ≤ current_page then (.stop, stamps.length)
      else (.next (page + 1) 0 seen2, stamps.length)

/-- The scraper_api_categories.py `scrape_category` loop over a script of
responses.  Returns the number of HTTP requests made and the total
number of accepted records. -/
def scrape_category_run : List FetchResponse → String → Nat →
    List String → Nat → Nat × Nat
  | [], _, _, _, _ => (0, 0)
  | resp :: rest, category, page, seen, streak =>
    match scrape_category_step resp category page seen streak with
    | (.stop, k) => (1, k)
    | (.next p s sn, k) =>
      let (n, acc) := scrape_category_run rest category p sn s
      (n + 1, acc + k)
    | (.sameRequest p s sn, k) =>
      let (n, acc) := scrape_category_run rest category p sn s
      (n + 1, acc + k)

end StampAPICategoryScraper

namespace StampAPIUSConditionScraper

/-- scraper_api_us_conditions.py lines 217-222. -/
def processResults (condition : String) : List ApiResult → List String →
    List CondStampRecord × List String
  | [], seen => ([], seen)
  | r :: rs, seen =>
    match extract_stamp_data r condition seen with
    | (.ok s, seen2) =>
      let (l, seen3) := processResults condition rs seen2
      (s :: l, seen3)
    | (.error _, seen2) => processResults condition rs seen2

/-- One iteration of the scraper_api_us_conditions.py lines 176-249 loop
body (`StampAPIUSConditionScraper.scrape_condition`): line-identical to
the category loop. -/
def scrape_condition_step (resp : FetchResponse) (condition : String)
    (page : Nat) (seen : List String) (streak : Nat) : LoopOutcome × Nat :=
  match resp with
  | .throttled => (.sameRequest page streak seen, 0)
  | .httpError _ => (.stop, 0)
  | .ok results currentPageOpt totalPagesOpt =>
    if results.isEmpty then
      if 2 ≤ streak + 1 then (.stop, 0)
      else (.next (page + 1) (streak + 1) seen, 0)
    else
      let (stamps, seen2) := processResults condition results seen
      let current_page := currentPageOpt.getD page
      let total_pages := totalPagesOpt.getD 0
      if total_pages ≤ current_page then (.stop, stamps.length)
      else (.next (page + 1) 0 seen2, stamps.length)

/-- The `scrape_condition` loop over a script of responses; returns the
number of HTTP requests made and the total accepted records. -/
def scrape_condition_run : List FetchResponse → String → Nat →
    List String → Nat → Nat × Nat
  | [], _, _, _, _ => (0, 0)
  | resp :: rest, condition, page, seen, streak =>
    match scrape_condition_step resp condition page seen streak with
    | (.stop, k) => (1, k)
    | (.next p s sn, k) =>
      let (n, acc) := scrape_condition_run rest condition p sn s
      (n + 1, acc + k)
    | (.sameRequest p s sn, k) =>
      let (n, acc) := scrape_condition_run rest condition p sn s
      (n + 1, acc + k)

end StampAPIUSConditionScraper

/-- `rawRecord42` with both price fields absent: the missing-price case
of the specification. -/
def rawRecord42NoPrice : ApiResult :=
  { id := some "42", imageUrl := some "https://x/img.jpg",
    sku := some "Norway 1", name := some "1 - 1855 Norway" }

/-- An HTML listing whose title is the bare year "1855": after removing
the leading four digits the country is empty. -/
def listingYearOnly : HtmlListing :=
  { dataProductId := some "77", cardImageSrc := some "https://x/i.jpg",
    stampNumberText := some "Norway 1", titleSpanText := some "1855",
    priceText := some "$5.00" }

/-- The record scraper.py builds from `listingYearOnly`: its country is
the empty string. -/
def emptyCountryRecord : StampRecord :=
  { product_id := "77", image_url := "https://x/i.jpg",
    stamp_number := "Norway 1", year := "1855", country := "",
    price := mkRat 5 1 }

/-- A raw JSON record whose title contains the delimiter twice:
`"1 - 1855 East - Germany"`. -/
def rawEastGermany : ApiResult :=
  { uid := some "7", imageUrl := some "https://x/eg.jpg",
    sku := some "Germany 12", name := some "1 - 1855 East - Germany",
    price := some (mkRat 5 1) }

/-- A raw JSON record that reaches the catalog-number gate with the
non-digit-terminated value `"France 12-14"`. -/
def rawFranceRange : ApiResult :=
  { uid := some "8", imageUrl := some "https://x/fr.jpg",
    sku := some "France 12-14", name := some "12 - 1870 France",
    price := some (mkRat 5 1) }

/-- A raw JSON record whose title `"1 - 1855"` yields an empty country. -/
def rawNoCountry : ApiResult :=
  { uid := some "6", imageUrl := some "https://x/nc.jpg",
    sku := some "Norway 1", name := some "1 - 1855",
    price := some (mkRat 5 1) }

/-- A raw JSON record with no `sku` field: rejected at the catalog gate,
so a batch containing it has nonzero raw records and zero accepted. -/
def rawBadSku : ApiResult :=
  { uid := some "9", imageUrl := some "https://x/b.jpg",
    name := some "1 - 1855 Norway", price := some (mkRat 5 1) }

/-- A product page with no `data-product-id` anywhere, otherwise valid. -/
def pageNoId : ProductPage :=
  { zoomImg := some (some "https://x/wa.jpg", none),
    titleText := some "1854 Western Australia",
    stampNumberText := some "#1", priceText := some "$5.00" }

/-- The record scraper_product_pages.py builds from `pageNoId`, carrying
the fallback identifier. -/
def fallbackIdRecord : StampRecord :=
  { product_id := "Western Australia_1", image_url := "https://x/wa.jpg",
    stamp_number := "Western Australia 1", year := "1854",
    country := "Western Australia", price := mkRat 5 1 }

namespace StampAPIScraper

theorem extract_cases_api (r : ApiResult) (seen : List String) :
    (∃ e, extract_stamp_data r seen = (.error e, seen)) ∨
    (∃ rec, extract_stamp_data r seen = (.ok rec, rec.product_id :: seen) ∧
      rec.product_id = pyOrStr (r.uid.getD "") (r.id.getD "") ∧
      rec.product_id ∉ seen ∧ rec.product_id ≠ "" ∧
      is_valid_stamp_number (r.sku.getD "") = true ∧
      rec.country ≠ "") := by
  by_cases h1 : pyOrStr (r.uid.getD "") (r.id.getD "") = ""
  · exact Or.inl ⟨.NoIdentifier, by simp [extract_stamp_data, h1]⟩
  by_cases h2 : pyOrStr (r.uid.getD "") (r.id.getD "") ∈ seen
  · exact Or.inl ⟨.Duplicate, by simp [extract_stamp_data, h1, h2]⟩
  by_cases h3 : pyOrStr (r.imageUrl.getD "") (r.thumbnailImageUrl.getD "") = ""
  · exact Or.inl ⟨.NoImage, by simp [extract_stamp_data, h1, h2, h3]⟩
  by_cases h4 : hasSub (pyOrStr (r.imageUrl.getD "") (r.thumbnailImageUrl.getD ""))
      "new-image-coming-soon.jpg" = true
  · exact Or.inl ⟨.NoImage, by simp [extract_stamp_data, h1, h2, h3, h4]⟩
  by_cases h5 : r.sku.getD "" = ""
  · exact Or.inl ⟨.InvalidCatalogNumber, by
      simp [extract_stamp_data, h1, h2, h3, h4, h5]⟩
  by_cases h6 : is_valid_stamp_number (r.sku.getD "") = true
  case neg =>
    exact Or.inl ⟨.InvalidCatalogNumber, by
      simp [extract_stamp_data, h1, h2, h3, h4, h5, h6]⟩
  by_cases h7 : r.name.getD "" = ""
  · exact Or.inl ⟨.NoYear, by simp [extract_stamp_data, h1, h2, h3, h4, h5, h6, h7]⟩
  by_cases h8 : (pySplitAll (r.name.getD "") " - ").length < 2
  · exact Or.inl ⟨.NoYear, by
      simp [extract_stamp_data, h1, h2, h3, h4, h5, h6, h7, h8]⟩
  cases hy : yearOf (titleSecond (r.name.getD "")) with
  | none =>
    exact Or.inl ⟨.NoYear, by
      simp [extract_stamp_data, h1, h2, h3, h4, h5, h6, h7, h8, hy]⟩
  | some year =>
    by_cases h9 : pyStrip (dropFour (titleSecond (r.name.getD ""))) = ""
    · exact Or.inl ⟨.NoCountry, by
        simp [extract_stamp_data, h1, h2, h3, h4, h5, h6, h7, h8, hy, h9]⟩
    cases hp : pyOrPrice r.price r.ss_price with
    | none =>
      exact Or.inl ⟨.NoPrice, by
        simp [extract_stamp_data, h1, h2, h3, h4, h5, h6, h7, h8, hy, h9, hp]⟩
    | some price =>
      have hok : extract_stamp_data r seen =
          (.ok { product_id := pyOrStr (r.uid.getD "") (r.id.getD ""),
                 image_url :=
                   pyOrStr (r.imageUrl.getD "") (r.thumbnailImageUrl.getD ""),
                 stamp_number := r.sku.getD "", year := year,
                 country := pyStrip (dropFour (titleSecond (r.name.getD ""))),
                 price := price },
           pyOrStr (r.uid.getD "") (r.id.getD "") :: seen) := by
        simp [extract_stamp_data, h1, h2, h3, h4, h5, h6, h7, h8, hy, h9, hp]
      exact Or.inr ⟨_, hok, rfl, h2, h1, h6, h9⟩

end StampAPIScraper

namespace StampAPIScraper

/-- Rejections leave the seen set unchanged (plain API variant). -/
theorem extract_error_seen (r : ApiResult) (seen : List String) (e : Rejection)
    (seen2 : List String) (h : extract_stamp_data r seen = (.error e, seen2)) :
    seen2 = seen := by
  rcases extract_cases_api r seen with ⟨e2, he⟩ | ⟨rec, hrec, _⟩
  · rw [h] at he
    exact (Prod.ext_iff.mp he).2
  · rw [h] at hrec
    simp at hrec

/-- Success pushes exactly the product identifier (plain API variant). -/
theorem extract_ok_seen (r : ApiResult) (seen : List String)
    (rec : StampRecord) (seen2 : List String)
    (h : extract_stamp_data r seen = (.ok rec, seen2)) :
    seen2 = rec.product_id :: seen ∧ rec.product_id ∉ seen := by
  rcases extract_cases_api r seen with ⟨e2, he⟩ | ⟨rec2, hrec, _, hmem, _⟩
  · rw [h] at he
    simp at he
  · rw [h] at hrec
    have h1 : rec = rec2 := by
      have := (Prod.ext_iff.mp hrec).1
      simpa using this
    subst h1
    exact ⟨(Prod.ext_iff.mp hrec).2, hmem⟩

/-- A batch in which no record is accepted leaves the seen set unchanged. -/
theorem processResults_empty (results : List ApiResult) (seen : List String)
    (h : (processResults results seen).1 = []) :
    (processResults results seen).2 = seen := by
  induction results generalizing seen with
  | nil => simp [processResults]
  | cons r rs ih =>
    rcases hx : extract_stamp_data r seen with ⟨res, seen2⟩
    cases res with
    | ok s =>
      rcases hrest : processResults rs seen2 with ⟨l, seen3⟩
      simp [processResults, hx, hrest] at h
    | error e =>
      have hseen : seen2 = seen := extract_error_seen r seen e seen2 hx
      subst hseen
      simp only [processResults, hx] at h ⊢
      exact ih _ h

/-- An empty `scrape_page` batch leaves the seen set unchanged. -/
theorem scrape_page_empty_seen (first retry : FetchResponse)
    (seen : List String) (h : (scrape_page first retry seen).1 = []) :
    (scrape_page first retry seen).2.1 = seen := by
  cases first with
  | ok results cp tp =>
    rcases hp : processResults results seen with ⟨l, seen2⟩
    simp only [scrape_page, hp] at h ⊢
    have h3 := processResults_empty results seen
    rw [hp] at h3
    simpa using h3 (by simpa using h)
  | httpError c => simp [scrape_page]
  | throttled =>
    cases retry with
    | ok results cp tp =>
      rcases hp : processResults results seen with ⟨l, seen2⟩
      simp only [scrape_page, hp] at h ⊢
      have h3 := processResults_empty results seen
      rw [hp] at h3
      simpa using h3 (by simpa using h)
    | httpError c => simp [scrape_page]
    | throttled => simp [scrape_page]

/-- Unrolling `scrape_all` over a zero-accepted batch: the streak
increments and the loop stops exactly when it reaches 3. -/
theorem scrape_all_cons_empty (first retry : FetchResponse)
    (rest : List (FetchResponse × FetchResponse)) (seen : List String)
    (streak : Nat) (h : (scrape_page first retry seen).1 = []) :
    scrape_all ((first, retry) :: rest) seen streak =
      if 3 ≤ streak + 1 then (1, 0)
      else ((scrape_all rest seen (streak + 1)).1 + 1,
            (scrape_all rest seen (streak + 1)).2) := by
  rcases hs : scrape_page first retry seen with ⟨a, b, c⟩
  have ha : a = [] := by rw [hs] at h; exact h
  have hb : b = seen := by
    have h2 := scrape_page_empty_seen first retry seen h
    rw [hs] at h2
    exact h2
  subst ha
  subst hb
  by_cases h3 : 3 ≤ streak + 1 <;>
    simp [scrape_all, scrape_all_step, hs, h3]

end StampAPIScraper

namespace StampScraper

/-- Case shape of the HTML-variant extractor: every rejection returns the
seen set unchanged; success pushes the (fresh, nonempty) identifier and
records a validated catalog number.  No fact about the country is
available: scraper.py never checks it. -/
theorem extract_cases_html (l : HtmlListing) (seen : List String) :
    (∃ e, extract_stamp_data l seen = (.error e, seen)) ∨
    (∃ rec, extract_stamp_data l seen = (.ok rec, rec.product_id :: seen) ∧
      l.dataProductId = some rec.product_id ∧
      rec.product_id ∉ seen ∧ rec.product_id ≠ "" ∧
      is_valid_stamp_number (pyStrip (l.stampNumberText.getD "")) = true) := by
  cases hid : l.dataProductId with
  | none => exact Or.inl ⟨.NoIdentifier, by simp [extract_stamp_data, hid]⟩
  | some pid =>
  by_cases h1 : pid = ""
  · exact Or.inl ⟨.NoIdentifier, by simp [extract_stamp_data, hid, h1]⟩
  by_cases h2 : pid ∈ seen
  · exact Or.inl ⟨.Duplicate, by simp [extract_stamp_data, hid, h1, h2]⟩
  cases himg : l.cardImageSrc with
  | none => exact Or.inl ⟨.NoImage, by simp [extract_stamp_data, hid, h1, h2, himg]⟩
  | some image_url =>
  by_cases h3 : hasSub image_url "new-image-coming-soon.jpg" = true
  · exact Or.inl ⟨.NoImage, by simp [extract_stamp_data, hid, h1, h2, himg, h3]⟩
  cases hsn : l.stampNumberText with
  | none =>
    exact Or.inl ⟨.InvalidCatalogNumber, by
      simp [extract_stamp_data, hid, h1, h2, himg, h3, hsn]⟩
  | some raw_number =>
  by_cases h4 : is_valid_stamp_number (pyStrip raw_number) = true
  case neg =>
    exact Or.inl ⟨.InvalidCatalogNumber, by
      simp [extract_stamp_data, hid, h1, h2, himg, h3, hsn, h4]⟩
  cases ht : l.titleSpanText with
  | none =>
    exact Or.inl ⟨.NoYear, by
      simp [extract_stamp_data, hid, h1, h2, himg, h3, hsn, h4, ht]⟩
  | some raw_title =>
  cases hy : yearOf (pyStrip raw_title) with
  | none =>
    exact Or.inl ⟨.NoYear, by
      simp [extract_stamp_data, hid, h1, h2, himg, h3, hsn, h4, ht, hy]⟩
  | some year =>
  cases hpt : l.priceText with
  | none =>
    exact Or.inl ⟨.NoPrice, by
      simp [extract_stamp_data, hid, h1, h2, himg, h3, hsn, h4, ht, hy, hpt]⟩
  | some raw_price =>
  cases hpp : parsePriceText (pyStrip raw_price) with
  | none =>
    exact Or.inl ⟨.NoPrice, by
      simp [extract_stamp_data, hid, h1, h2, himg, h3, hsn, h4, ht, hy, hpt, hpp]⟩
  | some price =>
    have hok : extract_stamp_data l seen =
        (.ok { product_id := pid, image_url := image_url,
               stamp_number := pyStrip raw_number, year := year,
               country := pyStrip (dropFour (pyStrip raw_title)),
               price := price },
         pid :: seen) := by
      simp [extract_stamp_data, hid, h1, h2, himg, h3, hsn, h4, ht, hy, hpt, hpp]
    refine Or.inr ⟨_, hok, by simp [hid], h2, h1, ?_⟩
    rw [hsn] at *
    simpa using h4

end StampScraper

namespace StampAPICategoryScraper

/-- The category-variant extractor never succeeds with an empty country:
the gate at scraper_api_categories.py lines 100-102 rejects first. -/
theorem extract_ok_country_cat (r : ApiResult) (category : String)
    (seen : List String) (rec : CatStampRecord) (seen2 : List String)
    (h : extract_stamp_data r category seen = (.ok rec, seen2)) :
    rec.country ≠ "" := by
  by_cases h1 : pyOrStr (r.uid.getD "") (r.id.getD "") = ""
  · simp [extract_stamp_data, h1] at h
  by_cases h2 : pyOrStr (r.uid.getD "") (r.id.getD "") ∈ seen
  · simp [extract_stamp_data, h1, h2] at h
  by_cases h3 : pyOrStr (r.imageUrl.getD "") (r.thumbnailImageUrl.getD "") = ""
  · simp [extract_stamp_data, h1, h2, h3] at h
  by_cases h4 : hasSub (pyOrStr (r.imageUrl.getD "") (r.thumbnailImageUrl.getD ""))
      "new-image-coming-soon.jpg" = true
  · simp [extract_stamp_data, h1, h2, h3, h4] at h
  by_cases h5 : r.sku.getD "" = ""
  · simp [extract_stamp_data, h1, h2, h3, h4, h5] at h
  by_cases h6 : is_valid_stamp_number (r.sku.getD "") = true
  case neg => simp [extract_stamp_data, h1, h2, h3, h4, h5, h6] at h
  by_cases h7 : r.name.getD "" = ""
  · simp [extract_stamp_data, h1, h2, h3, h4, h5, h6, h7] at h
  by_cases h8 : hasSub (r.name.getD "") " - " = true
  case neg => simp [extract_stamp_data, h1, h2, h3, h4, h5, h6, h7, h8] at h
  by_cases h8b : (pySplitOnce (r.name.getD "") " - ").length < 2
  · simp [extract_stamp_data, h1, h2, h3, h4, h5, h6, h7, h8, h8b] at h
  cases hy : yearOf (titleSecondOnce (r.name.getD "")) with
  | none =>
    simp [extract_stamp_data, h1, h2, h3, h4, h5, h6, h7, h8, h8b, hy] at h
  | some year =>
  by_cases h9 : pyStrip (dropFour (titleSecondOnce (r.name.getD ""))) = ""
  · simp [extract_stamp_data, h1, h2, h3, h4, h5, h6, h7, h8, h8b, hy, h9] at h
  cases hp : r.price with
  | none =>
    simp [extract_stamp_data, h1, h2, h3, h4, h5, h6, h7, h8, h8b, hy, h9, hp] at h
  | some price =>
    simp [extract_stamp_data, h1, h2, h3, h4, h5, h6, h7, h8, h8b, hy, h9, hp] at h
    obtain ⟨hrec, -⟩ := h
    subst hrec
    simpa using h9

/-- A missing identifier (both `uid` and `id` absent or empty) is
rejected with `NoIdentifier` by the category variant. -/
theorem extract_missing_id_cat (r : ApiResult) (category : String)
    (seen : List String) (h : pyOrStr (r.uid.getD "") (r.id.getD "") = "") :
    extract_stamp_data r category seen = (.error .NoIdentifier, seen) := by
  simp [extract_stamp_data, h]

end StampAPICategoryScraper

namespace StampAPIUSConditionScraper

/-- The condition-variant extractor never succeeds with an empty country:
the gate at scraper_api_us_conditions.py lines 88-90 rejects first. -/
theorem extract_ok_country_cond (r : ApiResult) (condition : String)
    (seen : List String) (rec : CondStampRecord) (seen2 : List String)
    (h : extract_stamp_data r condition seen = (.ok rec, seen2)) :
    rec.country ≠ "" := by
  by_cases h1 : pyOrStr (r.uid.getD "") (r.id.getD "") = ""
  · simp [extract_stamp_data, h1] at h
  by_cases h2 : pyOrStr (r.uid.getD "") (r.id.getD "") ∈ seen
  · simp [extract_stamp_data, h1, h2] at h
  by_cases h3 : pyOrStr (r.imageUrl.getD "") (r.thumbnailImageUrl.getD "") = ""
  · simp [extract_stamp_data, h1, h2, h3] at h
  by_cases h4 : hasSub (pyOrStr (r.imageUrl.getD "") (r.thumbnailImageUrl.getD ""))
      "new-image-coming-soon.jpg" = true
  · simp [extract_stamp_data, h1, h2, h3, h4] at h
  by_cases h5 : r.sku.getD "" = ""
  · simp [extract_stamp_data, h1, h2, h3, h4, h5] at h
  by_cases h6 : is_valid_stamp_number (r.sku.getD "") = true
  case neg => simp [extract_stamp_data, h1, h2, h3, h4, h5, h6] at h
  by_cases h7 : r.name.getD "" = ""
  · simp [extract_stamp_data, h1, h2, h3, h4, h5, h6, h7] at h
  by_cases h8 : hasSub (r.name.getD "") " - " = true
  case neg => simp [extract_stamp_data, h1, h2, h3, h4, h5, h6, h7, h8] at h
  by_cases h8b : (pySplitOnce (r.name.getD "") " - ").length < 2
  · simp [extract_stamp_data, h1, h2, h3, h4, h5, h6, h7, h8, h8b] at h
  cases hy : yearOf (titleSecondOnce (r.name.getD "")) with
  | none =>
    simp [extract_stamp_data, h1, h2, h3, h4, h5, h6, h7, h8, h8b, hy] at h
  | some year =>
  by_cases h9 : pyStrip (dropFour (titleSecondOnce (r.name.getD ""))) = ""
  · simp [extract_stamp_data, h1, h2, h3, h4, h5, h6, h7, h8, h8b, hy, h9] at h
  cases hp : r.price with
  | none =>
    simp [extract_stamp_data, h1, h2, h3, h4, h5, h6, h7, h8, h8b, hy, h9, hp] at h
  | some price =>
    simp [extract_stamp_data, h1, h2, h3, h4, h5, h6, h7, h8, h8b, hy, h9, hp] at h
    obtain ⟨hrec, -⟩ := h
    subst hrec
    simpa using h9

/-- A missing identifier (both `uid` and `id` absent or empty) is
rejected with `NoIdentifier` by the condition variant. -/
theorem extract_missing_id_cond (r : ApiResult) (condition : String)
    (seen : List String) (h : pyOrStr (r.uid.getD "") (r.id.getD "") = "") :
    extract_stamp_data r condition seen = (.error .NoIdentifier, seen) := by
  simp [extract_stamp_data, h]

end StampAPIUSConditionScraper

namespace StampProductScraper

/-- The product-page extractor has no missing-identifier rejection at
all: no input produces `NoIdentifier`. -/
theorem extract_no_noidentifier (page : ProductPage) (seen : List String) :
    (extract_product_data page seen).1 ≠ Except.error Rejection.NoIdentifier := by
  simp only [extract_product_data]
  repeat' split
  all_goals simp

end StampProductScraper

/-- C1: For the JSON raw record with id "42", image "https://x/img.jpg",
catalog "Norway 1", title "1 - 1855 Norway" and price 12.5, when "42" is
not already in the seen set, normalize succeeds and returns the canonical
record with product_id "42", stamp_number "Norway 1", year "1855",
country "Norway" and price 12.5 (and the image URL), adding "42" to the
seen set. -/
theorem claim1_roundtrip (seen : List String) (h : "42" ∉ seen) :
    StampAPIScraper.extract_stamp_data rawRecord42 seen =
      (.ok canonical42, "42" :: seen) := by
  have hpid : pyOrStr (rawRecord42.uid.getD "") (rawRecord42.id.getD "") =
      "42" := rfl
  simp only [StampAPIScraper.extract_stamp_data, hpid]
  rw [if_neg (by decide : ¬("42" : String) = ""), if_neg h]
  exact rfl

/-- Witness for C1 at the empty seen set. -/
theorem claim1_witness :
    StampAPIScraper.extract_stamp_data rawRecord42 [] =
      (.ok canonical42, ["42"]) :=
  claim1_roundtrip [] (by decide)

/-- C2: "France 12-14", "Norway 3/4" and "" all fail the catalog-number
validator of both normalizer variants; a raw record whose catalog text
fails the validator is never turned into a canonical record, and — once
the earlier identifier and image gates pass — is rejected with exactly
`InvalidCatalogNumber`. -/
theorem claim2_invalid_catalog :
    (StampAPIScraper.is_valid_stamp_number "France 12-14" = false ∧
     StampAPIScraper.is_valid_stamp_number "Norway 3/4" = false ∧
     StampAPIScraper.is_valid_stamp_number "" = false ∧
     StampScraper.is_valid_stamp_number "France 12-14" = false ∧
     StampScraper.is_valid_stamp_number "Norway 3/4" = false ∧
     StampScraper.is_valid_stamp_number "" = false) ∧
    (∀ (r : ApiResult) (seen : List String),
      StampAPIScraper.is_valid_stamp_number (r.sku.getD "") = false →
      (∀ rec seen2,
        StampAPIScraper.extract_stamp_data r seen ≠ (.ok rec, seen2)) ∧
      (pyOrStr (r.uid.getD "") (r.id.getD "") ≠ "" →
       pyOrStr (r.uid.getD "") (r.id.getD "") ∉ seen →
       pyOrStr (r.imageUrl.getD "") (r.thumbnailImageUrl.getD "") ≠ "" →
       hasSub (pyOrStr (r.imageUrl.getD "") (r.thumbnailImageUrl.getD ""))
         "new-image-coming-soon.jpg" = false →
       StampAPIScraper.extract_stamp_data r seen =
         (.error .InvalidCatalogNumber, seen))) ∧
    (∀ (l : HtmlListing) (seen : List String),
      StampScraper.is_valid_stamp_number
        (pyStrip (l.stampNumberText.getD "")) = false →
      ∀ rec seen2,
        StampScraper.extract_stamp_data l seen ≠ (.ok rec, seen2)) := by
  refine ⟨by decide, ?_, ?_⟩
  · intro r seen hval
    constructor
    · intro rec seen2 hok
      rcases StampAPIScraper.extract_cases_api r seen with
        ⟨e, he⟩ | ⟨rec2, hrec, -, -, -, hv, -⟩
      · rw [hok] at he
        simp at he
      · simp [hv] at hval
    · intro g1 g2 g3 g4
      by_cases h5 : r.sku.getD "" = ""
      · simp [StampAPIScraper.extract_stamp_data, g1, g2, g3, g4, h5]
      · simp [StampAPIScraper.extract_stamp_data, g1, g2, g3, g4, h5, hval]
  · intro l seen hval rec seen2 hok
    rcases StampScraper.extract_cases_html l seen with
      ⟨e, he⟩ | ⟨rec2, hrec, -, -, -, hv⟩
    · rw [hok] at he
      simp at he
    · simp [hv] at hval

/-- Witness for C2: the France range record with passing earlier gates is
rejected with `InvalidCatalogNumber`. -/
theorem claim2_witness :
    StampAPIScraper.extract_stamp_data rawFranceRange [] =
      (.error .InvalidCatalogNumber, []) :=
  (claim2_invalid_catalog.2.1 rawFranceRange [] (by decide)).2
    (by decide) (by decide) (by decide) (by decide)

/-- C3 counterexample: the HTML variant (scraper.py) accepts the listing
whose title is the bare year "1855" and produces a canonical record whose
country is the empty string — it has no empty-country check. -/
theorem claim3_counterexample :
    StampScraper.extract_stamp_data listingYearOnly [] =
      (.ok emptyCountryRecord, ["77"]) ∧
    emptyCountryRecord.country = "" :=
  ⟨rfl, rfl⟩

/-- C3 amended: every JSON variant rejects an empty country (tagged
`NoCountry`) and never produces a record with an empty country; the HTML
list variant performs no such check (see the counterexample). -/
theorem claim3_empty_country_amended :
    (∀ (r : ApiResult) (seen : List String) rec seen2,
      StampAPIScraper.extract_stamp_data r seen = (.ok rec, seen2) →
        rec.country ≠ "") ∧
    (∀ (r : ApiResult) (category : String) (seen : List String) rec seen2,
      StampAPICategoryScraper.extract_stamp_data r category seen =
        (.ok rec, seen2) → rec.country ≠ "") ∧
    (∀ (r : ApiResult) (condition : String) (seen : List String) rec seen2,
      StampAPIUSConditionScraper.extract_stamp_data r condition seen =
        (.ok rec, seen2) → rec.country ≠ "") ∧
    StampAPIScraper.extract_stamp_data rawNoCountry [] =
      (.error .NoCountry, []) := by
  refine ⟨?_, ?_, ?_, rfl⟩
  · intro r seen rec seen2 h
    rcases StampAPIScraper.extract_cases_api r seen with
      ⟨e, he⟩ | ⟨rec2, hrec, -, -, -, -, hc⟩
    · rw [h] at he
      simp at he
    · rw [h] at hrec
      simp at hrec
      obtain ⟨he1, -⟩ := hrec
      subst he1
      exact hc
  · intro r category seen rec seen2 h
    exact StampAPICategoryScraper.extract_ok_country_cat r category seen rec seen2 h
  · intro r condition seen rec seen2 h
    exact StampAPIUSConditionScraper.extract_ok_country_cond r condition seen
      rec seen2 h

/-- Witness for C3 (amended) at the round-trip record. -/
theorem claim3_witness : canonical42.country ≠ "" :=
  claim3_empty_country_amended.1 rawRecord42 [] canonical42 ["42"] rfl

/-- C4 counterexample: for the title "1 - 1855 East - Germany" the plain
JSON variant (scraper_api.py) splits on EVERY occurrence of " - ",
obtaining three parts, and parses only the segment "1855 East" between
the first two delimiters, so the accepted record carries country "East",
not the whole remainder "East - Germany". -/
theorem claim4_counterexample :
    pySplitAll "1 - 1855 East - Germany" " - " =
      ["1", "1855 East", "Germany"] ∧
    (StampAPIScraper.extract_stamp_data rawEastGermany []).1 =
      .ok { product_id := "7", image_url := "https://x/eg.jpg",
            stamp_number := "Germany 12", year := "1855",
            country := "East", price := mkRat 5 1 } ∧
    ("East" : String) ≠ "East - Germany" :=
  ⟨rfl, rfl, by decide⟩

/-- C4 amended: the category/condition JSON variants split the title at
the first " - " only and parse the entire remainder ("East - Germany");
the plain JSON variant (scraper_api.py) splits at every occurrence and
parses only the segment before the next delimiter ("East"). -/
theorem claim4_title_split_amended :
    pySplitOnce "1 - 1855 East - Germany" " - " =
      ["1", "1855 East - Germany"] ∧
    (StampAPICategoryScraper.extract_stamp_data rawEastGermany
        "Worldwide>Europe" []).1 =
      .ok { product_id := "7", image_url := "https://x/eg.jpg",
            stamp_number := "Germany 12", year := "1855",
            country := "East - Germany", price := mkRat 5 1,
            category := "Worldwide>Europe" } ∧
    (StampAPIUSConditionScraper.extract_stamp_data rawEastGermany
        "Used Stamp(s)" []).1 =
      .ok { product_id := "7", image_url := "https://x/eg.jpg",
            stamp_number := "Germany 12", year := "1855",
            country := "East - Germany", price := mkRat 5 1,
            condition := "Used Stamp(s)" } ∧
    (StampAPIScraper.extract_stamp_data rawEastGermany []).1 =
      .ok { product_id := "7", image_url := "https://x/eg.jpg",
            stamp_number := "Germany 12", year := "1855",
            country := "East", price := mkRat 5 1 } :=
  ⟨rfl, rfl, rfl, rfl⟩

/-- C5 counterexample: the product-page (link-walk) variant, given a page
with no data-product-id at all, still produces a canonical record, under
the fallback identifier "Western Australia_1" (and adds nothing to the
seen set). -/
theorem claim5_counterexample :
    pageNoId.dataProductId = none ∧
    StampProductScraper.extract_product_data pageNoId [] =
      (.ok fallbackIdRecord, []) :=
  ⟨rfl, rfl⟩

/-- C5 amended: the HTML list variant and all JSON variants reject a raw
record whose identifier field is missing (or empty) with `NoIdentifier`;
the product-page variant has no such rejection — no input yields
`NoIdentifier` — and instead substitutes the fallback identifier
"<country>_<number>" (see the counterexample). -/
theorem claim5_no_identifier_amended :
    (∀ (r : ApiResult) (seen : List String),
      pyOrStr (r.uid.getD "") (r.id.getD "") = "" →
      StampAPIScraper.extract_stamp_data r seen =
        (.error .NoIdentifier, seen)) ∧
    (∀ (l : HtmlListing) (seen : List String), l.dataProductId.getD "" = "" →
      StampScraper.extract_stamp_data l seen = (.error .NoIdentifier, seen)) ∧
    (∀ (r : ApiResult) (category : String) (seen : List String),
      pyOrStr (r.uid.getD "") (r.id.getD "") = "" →
      StampAPICategoryScraper.extract_stamp_data r category seen =
        (.error .NoIdentifier, seen)) ∧
    (∀ (r : ApiResult) (condition : String) (seen : List String),
      pyOrStr (r.uid.getD "") (r.id.getD "") = "" →
      StampAPIUSConditionScraper.extract_stamp_data r condition seen =
        (.error .NoIdentifier, seen)) ∧
    (∀ (page : ProductPage) (seen : List String),
      (StampProductScraper.extract_product_data page seen).1 ≠
        .error .NoIdentifier) := by
  refine ⟨?_, ?_, ?_, ?_, ?_⟩
  · intro r seen h
    simp [StampAPIScraper.extract_stamp_data, h]
  · intro l seen h
    cases hid : l.dataProductId with
    | none => simp [StampScraper.extract_stamp_data, hid]
    | some pid =>
      rw [hid] at h
      simp at h
      simp [StampScraper.extract_stamp_data, hid, h]
  · intro r category seen h
    exact StampAPICategoryScraper.extract_missing_id_cat r category seen h
  · intro r condition seen h
    exact StampAPIUSConditionScraper.extract_missing_id_cond r condition seen h
  · intro page seen
    exact StampProductScraper.extract_no_noidentifier page seen

/-- Witness for C5 (amended): the all-fields-absent JSON record. -/
theorem claim5_witness :
    StampAPIScraper.extract_stamp_data {} [] =
      (.error .NoIdentifier, []) :=
  claim5_no_identifier_amended.1 {} [] (by decide)

/-- C6: a raw record that normalizes successfully against a seen set is
rejected as `Duplicate` when normalized a second time against the
updated seen set. -/
theorem claim6_duplicate_second (r : ApiResult) (seen : List String)
    (rec : StampRecord) (seen2 : List String)
    (h : StampAPIScraper.extract_stamp_data r seen = (.ok rec, seen2)) :
    StampAPIScraper.extract_stamp_data r seen2 =
      (.error .Duplicate, seen2) := by
  rcases StampAPIScraper.extract_cases_api r seen with
    ⟨e, he⟩ | ⟨rec2, hrec, hpid, hmem, hne, -, -⟩
  · rw [h] at he
    simp at he
  · rw [h] at hrec
    simp at hrec
    obtain ⟨he1, he2⟩ := hrec
    subst he1
    subst he2
    simp [StampAPIScraper.extract_stamp_data, ← hpid, hne]

/-- Witness for C6 at the round-trip record. -/
theorem claim6_witness :
    StampAPIScraper.extract_stamp_data rawRecord42 ["42"] =
      (.error .Duplicate, ["42"]) :=
  claim6_duplicate_second rawRecord42 [] canonical42 ["42"] rfl

/-- C7 counterexample: in the category strategy, a batch with one raw
record and zero accepted records does NOT count toward the empty streak:
with the streak already at 1 (so that one more empty batch would stop the
loop at N = 2), the step RESETS the streak to 0 and continues. -/
theorem claim7_counterexample :
    ([rawBadSku].isEmpty = false) ∧
    StampAPICategoryScraper.scrape_category_step
        (.ok [rawBadSku] (some 1) (some 5)) "Worldwide>Africa" 1 [] 1 =
      (.next 2 0 [], 0) :=
  ⟨rfl, rfl⟩

/-- C7 amended: the plain strategy stops after 3 consecutive batches with
zero ACCEPTED records (a batch with nonzero raw records but zero accepted
ones counts); the category and condition strategies count only batches
with zero RAW results toward their streak (threshold 2) and reset the
streak to 0 on any batch with raw results, however many are accepted. -/
theorem claim7_empty_streak_amended :
    (∀ (first retry : FetchResponse) (seen : List String) (streak : Nat),
      (StampAPIScraper.scrape_page first retry seen).1 = [] →
      StampAPIScraper.scrape_all_step first retry seen streak =
        ((streak + 1, decide (3 ≤ streak + 1), seen), 0)) ∧
    (∀ (p1 p2 p3 : FetchResponse × FetchResponse)
        (rest : List (FetchResponse × FetchResponse)) (seen : List String),
      (StampAPIScraper.scrape_page p1.1 p1.2 seen).1 = [] →
      (StampAPIScraper.scrape_page p2.1 p2.2 seen).1 = [] →
      (StampAPIScraper.scrape_page p3.1 p3.2 seen).1 = [] →
      StampAPIScraper.scrape_all (p1 :: p2 :: p3 :: rest) seen 0 = (3, 0)) ∧
    (∀ (category : String) (page : Nat) (seen : List String) (streak : Nat)
        (cpo tpo : Option Nat),
      StampAPICategoryScraper.scrape_category_step (.ok [] cpo tpo)
          category page seen streak =
        (if 2 ≤ streak + 1 then (.stop, 0)
         else (.next (page + 1) (streak + 1) seen, 0))) ∧
    (∀ (category : String) (page : Nat) (seen : List String) (streak : Nat)
        (results : List ApiResult) (cpo tpo : Option Nat), results ≠ [] →
      StampAPICategoryScraper.scrape_category_step (.ok results cpo tpo)
          category page seen streak =
        (if tpo.getD 0 ≤ cpo.getD page then
          (.stop,
           (StampAPICategoryScraper.processResults category results seen).1.length)
         else
          (.next (page + 1) 0
             (StampAPICategoryScraper.processResults category results seen).2,
           (StampAPICategoryScraper.processResults category results seen).1.length))) ∧
    (∀ (condition : String) (page : Nat) (seen : List String) (streak : Nat)
        (cpo tpo : Option Nat),
      StampAPIUSConditionScraper.scrape_condition_step (.ok [] cpo tpo)
          condition page seen streak =
        (if 2 ≤ streak + 1 then (.stop, 0)
         else (.next (page + 1) (streak + 1) seen, 0))) ∧
    (∀ (condition : String) (page : Nat) (seen : List String) (streak : Nat)
        (results : List ApiResult) (cpo tpo : Option Nat), results ≠ [] →
      StampAPIUSConditionScraper.scrape_condition_step (.ok results cpo tpo)
          condition page seen streak =
        (if tpo.getD 0 ≤ cpo.getD page then
          (.stop,
           (StampAPIUSConditionScraper.processResults condition results seen).1.length)
         else
          (.next (page + 1) 0
             (StampAPIUSConditionScraper.processResults condition results seen).2,
           (StampAPIUSConditionScraper.processResults condition results seen).1.length))) := by
  refine ⟨?_, ?_, ?_, ?_, ?_, ?_⟩
  · intro first retry seen streak h
    rcases hs : StampAPIScraper.scrape_page first retry seen with ⟨a, b, c⟩
    have ha : a = [] := by rw [hs] at h; exact h
    have hb : b = seen := by
      have h2 := StampAPIScraper.scrape_page_empty_seen first retry seen h
      rw [hs] at h2
      exact h2
    subst ha
    subst hb
    simp [StampAPIScraper.scrape_all_step, hs]
  · intro p1 p2 p3 rest seen h1 h2 h3
    obtain ⟨f1, r1⟩ := p1
    obtain ⟨f2, r2⟩ := p2
    obtain ⟨f3, r3⟩ := p3
    rw [StampAPIScraper.scrape_all_cons_empty f1 r1 _ seen 0 h1]
    norm_num
    rw [StampAPIScraper.scrape_all_cons_empty f2 r2 _ seen 1 h2]
    norm_num
    rw [StampAPIScraper.scrape_all_cons_empty f3 r3 _ seen 2 h3]
    norm_num
  · intro category page seen streak cpo tpo
    simp [StampAPICategoryScraper.scrape_category_step]
  · intro category page seen streak results cpo tpo hne
    cases results with
    | nil => exact absurd rfl hne
    | cons a as =>
      rcases hp : StampAPICategoryScraper.processResults category (a :: as)
          seen with ⟨stamps, seen2⟩
      simp [StampAPICategoryScraper.scrape_category_step, hp]
  · intro condition page seen streak cpo tpo
    simp [StampAPIUSConditionScraper.scrape_condition_step]
  · intro condition page seen streak results cpo tpo hne
    cases results with
    | nil => exact absurd rfl hne
    | cons a as =>
      rcases hp : StampAPIUSConditionScraper.processResults condition (a :: as)
          seen with ⟨stamps, seen2⟩
      simp [StampAPIUSConditionScraper.scrape_condition_step, hp]

/-- Witness for C7 (amended): a plain-strategy run over one transport
error, one zero-accepted batch with a raw record, and one raw-empty batch
stops after exactly those three pages with zero records. -/
theorem claim7_witness :
    StampAPIScraper.scrape_all
        [(.httpError 500, .throttled), (.ok [rawBadSku] none none, .throttled),
         (.ok [] none none, .throttled)] [] 0 = (3, 0) :=
  claim7_empty_streak_amended.2.1 (.httpError 500, .throttled)
    (.ok [rawBadSku] none none, .throttled) (.ok [] none none, .throttled)
    [] [] rfl rfl rfl

/-- C8: the HTML price string "$1,234.50" parses to exactly 1234.50
(dollar sign and commas removed); a numeric JSON price 12.5 passes
through unchanged; a raw record with both price fields missing is
rejected with `NoPrice`. -/
theorem claim8_price_parsing :
    parsePriceText "$1,234.50" = some (mkRat 2469 2) ∧
    mkRat 2469 2 = (1234.50 : ℚ) ∧
    (StampAPIScraper.extract_stamp_data rawRecord42 []).1 =
      .ok canonical42 ∧
    canonical42.price = (12.5 : ℚ) ∧
    StampAPIScraper.extract_stamp_data rawRecord42NoPrice [] =
      (.error .NoPrice, []) := by
  refine ⟨rfl, by norm_num [Rat.mkRat_eq_div], rfl, ?_, rfl⟩
  show mkRat 25 2 = (12.5 : ℚ)
  norm_num [Rat.mkRat_eq_div]

/-- C9 counterexample: in the category strategy a throttled response
leads to `continue` with the same page, with NO retry limit: after two
consecutive throttles the third request of the same page is still made
and its batch is processed (one record accepted), instead of the batch
being treated as a fatal zero-record fetch error. -/
theorem claim9_counterexample :
    StampAPICategoryScraper.scrape_category_run
        [.throttled, .throttled, .ok [rawRecord42] (some 1) (some 1)]
        "Worldwide>Africa" 1 [] 0 = (3, 1) :=
  rfl

/-- C9 amended: the plain strategy sleeps 30 seconds and retries exactly
once, and a throttled retry yields an empty batch (two requests, zero
records); the category and condition strategies instead sleep 30 seconds
and re-request the same page after EVERY throttled response, without any
retry limit — k consecutive throttles simply add k requests before the
loop continues unchanged. -/
theorem claim9_throttle_amended :
    (∀ seen : List String,
      StampAPIScraper.scrape_page .throttled .throttled seen =
        ([], seen, 2)) ∧
    (∀ (code : Nat) (seen : List String),
      StampAPIScraper.scrape_page .throttled (.httpError code) seen =
        ([], seen, 2)) ∧
    (∀ (results : List ApiResult) (cpo tpo : Option Nat) (seen : List String),
      StampAPIScraper.scrape_page .throttled (.ok results cpo tpo) seen =
        ((StampAPIScraper.processResults results seen).1,
         (StampAPIScraper.processResults results seen).2, 2)) ∧
    (∀ (k : Nat) (rest : List FetchResponse) (category : String)
        (page : Nat) (seen : List String) (streak : Nat),
      StampAPICategoryScraper.scrape_category_run
          (List.replicate k .throttled ++ rest) category page seen streak =
        ((StampAPICategoryScraper.scrape_category_run
            rest category page seen streak).1 + k,
         (StampAPICategoryScraper.scrape_category_run
            rest category page seen streak).2)) ∧
    (∀ (k : Nat) (rest : List FetchResponse) (condition : String)
        (page : Nat) (seen : List String) (streak : Nat),
      StampAPIUSConditionScraper.scrape_condition_run
          (List.replicate k .throttled ++ rest) condition page seen streak =
        ((StampAPIUSConditionScraper.scrape_condition_run
            rest condition page seen streak).1 + k,
         (StampAPIUSConditionScraper.scrape_condition_run
            rest condition page seen streak).2)) := by
  refine ⟨fun seen => rfl, fun code seen => rfl, ?_, ?_, ?_⟩
  · intro results cpo tpo seen
    rcases hp : StampAPIScraper.processResults results seen with ⟨a, b⟩
    simp [StampAPIScraper.scrape_page, hp]
  · intro k rest category page seen streak
    induction k with
    | zero => simp
    | succ n ih =>
      rcases hr : StampAPICategoryScraper.scrape_category_run
          (List.replicate n .throttled ++ rest) category page seen streak
        with ⟨a, b⟩
      rw [hr] at ih
      simp only [List.replicate_succ, List.cons_append,
        StampAPICategoryScraper.scrape_category_run,
        StampAPICategoryScraper.scrape_category_step, List.append_eq]
      rw [hr]
      simp [Prod.ext_iff] at ih ⊢
      omega
  · intro k rest condition page seen streak
    induction k with
    | zero => simp
    | succ n ih =>
      rcases hr : StampAPIUSConditionScraper.scrape_condition_run
          (List.replicate n .throttled ++ rest) condition page seen streak
        with ⟨a, b⟩
      rw [hr] at ih
      simp only [List.replicate_succ, List.cons_append,
        StampAPIUSConditionScraper.scrape_condition_run,
        StampAPIUSConditionScraper.scrape_condition_step, List.append_eq]
      rw [hr]
      simp [Prod.ext_iff] at ih ⊢
      omega

/-- C10: in both the plain JSON and HTML variants, every rejection leaves
the seen set exactly unchanged; a success adds exactly the accepted
record's product identifier (which was not in the set before) and
nothing else. -/
theorem claim10_seen_set :
    (∀ (r : ApiResult) (seen : List String) (e : Rejection) seen2,
      StampAPIScraper.extract_stamp_data r seen = (.error e, seen2) →
        seen2 = seen) ∧
    (∀ (r : ApiResult) (seen : List String) rec seen2,
      StampAPIScraper.extract_stamp_data r seen = (.ok rec, seen2) →
        seen2 = rec.product_id :: seen ∧ rec.product_id ∉ seen) ∧
    (∀ (l : HtmlListing) (seen : List String) (e : Rejection) seen2,
      StampScraper.extract_stamp_data l seen = (.error e, seen2) →
        seen2 = seen) ∧
    (∀ (l : HtmlListing) (seen : List String) rec seen2,
      StampScraper.extract_stamp_data l seen = (.ok rec, seen2) →
        seen2 = rec.product_id :: seen ∧ rec.product_id ∉ seen) := by
  refine ⟨?_, ?_, ?_, ?_⟩
  · intro r seen e seen2 h
    exact StampAPIScraper.extract_error_seen r seen e seen2 h
  · intro r seen rec seen2 h
    exact StampAPIScraper.extract_ok_seen r seen rec seen2 h
  · intro l seen e seen2 h
    rcases StampScraper.extract_cases_html l seen with ⟨e2, he⟩ | ⟨rec2, hrec, -⟩
    · rw [h] at he
      exact (Prod.ext_iff.mp he).2
    · rw [h] at hrec
      simp at hrec
  · intro l seen rec seen2 h
    rcases StampScraper.extract_cases_html l seen with
      ⟨e2, he⟩ | ⟨rec2, hrec, -, hmem, -⟩
    · rw [h] at he
      simp at he
    · rw [h] at hrec
      simp at hrec
      obtain ⟨he1, he2⟩ := hrec
      subst he1
      exact ⟨he2, hmem⟩

/-- Witness for C10: the round-trip record against the empty seen set
adds exactly "42". -/
theorem claim10_witness :
    (["42"] : List String) = canonical42.product_id :: [] ∧
    canonical42.product_id ∉ ([] : List String) :=
  claim10_seen_set.2.1 rawRecord42 [] canonical42 ["42"] rfl
